import Mathlib

/-
Verification of the Ingredients Risk Analyser repository.

The repository has three Python files: backend.py (a FastAPI classification
endpoint around a pretrained 5-class sequence-classification model),
rag_pipeline.py (ingredient parsing plus an LLM-backed explanation service),
and frontend.py (a Streamlit UI).

Shallow embedding conventions:
  - The pretrained tokenizer+model+softmax stack is external; following the
    narrow capability interface of the design notes it is abstracted as a
    function `modelProbs : String → List ℚ` giving the softmax probability
    row for the (stripped) input text.  Probabilities are rationals standing
    in for floats; the claims settled here do not depend on rounding.
  - The hosted LLM client call `llm.invoke` is abstracted as a function
    `invoke : ChatGroq → String → Except String LLMResponse`; an `Except.error`
    models a raised exception carrying `str(e)`.
  - The process environment is a function `env : String → Option String`
    modelling `os.getenv`.
  - Python falsiness of strings, optional strings and optional dicts is made
    explicit with dedicated helper functions.
-/

/- ## Python string helpers -/

/-- The six ASCII whitespace characters removed by Python `str.strip()`. -/
def pyIsSpace (c : Char) : Bool :=
  c == ' ' || c == '\t' || c == '\n' || c == '\r' || c == '\x0b' || c == '\x0c'

/-- Python `str.strip()`: remove leading and trailing whitespace. -/
def pyStrip (s : String) : String :=
  String.mk (((s.toList.dropWhile pyIsSpace).reverse.dropWhile pyIsSpace).reverse)

/-- Python `str.isdigit()` (restricted to ASCII digits): true iff the string
is non-empty and every character is a digit. -/
def pyIsDigitStr (s : String) : Bool :=
  !s.isEmpty && s.toList.all Char.isDigit

/-- Python falsiness of an `Optional[str]`: `None` and `""` are falsy. -/
def pyFalsyOptStr : Option String → Bool
  | none => true
  | some s => s.isEmpty

/-- Python `dict.get(key, default)` over an association list. -/
def dictGet {α β : Type} [BEq α] (d : List (α × β)) (k : α) (default : β) : β :=
  match d.find? (fun kv => kv.1 == k) with
  | some kv => kv.2
  | none => default

/- ## backend.py -/

/-- backend.py line 46: `id2risk_level = {0: 1, 1: 2, 2: 3, 3: 4, 4: 5}`. -/
def id2risk_level : List (Int × Int) :=
  [(0, 1), (1, 2), (2, 3), (3, 4), (4, 5)]

/-- backend.py lines 47-53: the risk-level-to-category table. -/
def risk_level2category : List (Int × String) :=
  [(1, "Very Safe"), (2, "Safe"), (3, "Moderate"), (4, "Concerning"), (5, "High Risk")]

/-- backend.py lines 93-94, the label mapper:
`risk_level = id2risk_level.get(pred_id, 3)` and
`risk_category = risk_level2category.get(risk_level, "Unknown")`. -/
def map_risk (pred_id : Int) : Int × String :=
  let risk_level := dictGet id2risk_level pred_id 3
  let risk_category := dictGet risk_level2category risk_level "Unknown"
  (risk_level, risk_category)

/-- `torch.argmax` over a flat list: index of the first maximal element
(0 on the empty list). -/
def torchArgmaxAux : List ℚ → Nat → Nat → ℚ → Nat
  | [], _, best, _ => best
  | x :: xs, i, best, bestVal =>
      if bestVal < x then torchArgmaxAux xs (i + 1) i x
      else torchArgmaxAux xs (i + 1) best bestVal

/-- `torch.argmax` on the probability row of backend.py line 92. -/
def torchArgmax : List ℚ → Nat
  | [] => 0
  | x :: xs => torchArgmaxAux xs 1 0 x

/-- The `HTTPException(status_code=..., detail=...)` raised by backend.py. -/
structure HTTPError where
  status_code : Nat
  detail : String
deriving DecidableEq, Repr

/-- backend.py lines 59-65: the `PredictionResponse` pydantic model. -/
structure PredictionResponse where
  text : String
  pred_id : Int
  risk_level : Int
  risk_category : String
  probabilities : List (String × ℚ)
  error : Option String
deriving DecidableEq, Repr

/-- backend.py lines 68-108, the `/predict` handler `predict_risk`.  The
external tokenizer/model/softmax stack is the parameter `modelProbs`; the
in-repo logic is: strip the payload text, reject empty input with HTTP 400,
take the argmax of the probability row as `pred_id`, map it through the two
dictionaries, and serialize the probabilities keyed by string index. -/
def predict_risk (modelProbs : String → List ℚ) (payload_text : String) :
    Except HTTPError PredictionResponse :=
  let text := pyStrip payload_text
  if text = "" then
    Except.error ⟨400, "Empty input text"⟩
  else
    let probs := modelProbs text
    let pred_id : Int := Int.ofNat (torchArgmax probs)
    let risk_level := dictGet id2risk_level pred_id 3
    let risk_category := dictGet risk_level2category risk_level "Unknown"
    Except.ok
      { text := text
        pred_id := pred_id
        risk_level := risk_level
        risk_category := risk_category
        probabilities := probs.enum.map (fun ip => (toString ip.1, ip.2))
        error := none }

/- ## rag_pipeline.py -/

/-- The `ChatGroq` client configuration built in rag_pipeline.py lines 27-34. -/
structure ChatGroq where
  model : String
  temperature : ℚ
  max_tokens : Nat
  groq_api_key : String
  max_retries : Nat
  timeout : Nat
deriving DecidableEq, Repr

/-- rag_pipeline.py lines 19-39, `create_groq_llm`: read `GROQ_API_KEY` from
the environment; a falsy value raises `ValueError` (modelled as
`Except.error` with the message); otherwise construct the client. -/
def create_groq_llm (env : String → Option String) : Except String ChatGroq :=
  let api_key := env "GROQ_API_KEY"
  if pyFalsyOptStr api_key then
    Except.error "❌ GROQ_API_KEY not found in environment variables"
  else
    Except.ok
      { model := "openai/gpt-oss-120b"
        temperature := 3 / 10
        max_tokens := 600
        groq_api_key := api_key.getD ""
        max_retries := 2
        timeout := 30 }

/-- The delimiter class of rag_pipeline.py line 48: `re.split` on `[,()]`. -/
def ingredientDelim (c : Char) : Bool :=
  c == ',' || c == '(' || c == ')'

/-- Worker for `reSplit`: accumulate the current field (reversed) and emit a
field at every delimiter character. -/
def reSplitAux : List Char → List Char → List String
  | [], cur => [String.mk cur.reverse]
  | c :: cs, cur =>
      if ingredientDelim c then String.mk cur.reverse :: reSplitAux cs []
      else reSplitAux cs (c :: cur)

/-- `re.split` on the character class `[,()]`: split at every occurrence of a
delimiter, keeping empty fields; the empty string gives one empty field. -/
def reSplit (s : String) : List String :=
  reSplitAux s.toList []

/-- rag_pipeline.py lines 45-57, `parse_ingredients`: split on the delimiter
class, then loop, stripping each piece and appending it when it is truthy,
longer than one character and not all digits. -/
def parse_ingredients (ingredient_text : String) : List String :=
  let ingredients := reSplit ingredient_text
  let cleaned := ingredients.foldl
    (fun acc ing0 =>
      let ing := pyStrip ing0
      if ing ≠ "" ∧ ing.length > 1 ∧ ¬ pyIsDigitStr ing = true then acc ++ [ing]
      else acc)
    []
  cleaned

/-- The splitter as worded by the specification (section 4.2): split the
input on every comma and parenthesis, trim whitespace on each piece, and drop
pieces that are empty, of length at most one, or consisting entirely of
digits, preserving order.  Stated separately from `parse_ingredients` so the
two can be compared. -/
def ingredient_splitter_spec (text : String) : List String :=
  ((reSplit text).map pyStrip).filter
    (fun t => !(t.isEmpty || decide (t.length ≤ 1) || pyIsDigitStr t))

/-- A Python value appearing in the classification-result dict (ints and
strings are the cases that occur). -/
inductive PyVal where
  | vInt (n : Int)
  | vStr (s : String)
deriving DecidableEq, Repr

/-- Python string interpolation of a `PyVal` into an f-string. -/
def pyValToString : PyVal → String
  | .vInt n => toString n
  | .vStr s => s

/-- The object returned by `llm.invoke`: either it has a `content` attribute
(the normal message case) or it is formatted with `str(response)`. -/
inductive LLMResponse where
  | withContent (content : String)
  | plain (s : String)
deriving DecidableEq, Repr

/-- The text drawn from the response in rag_pipeline.py lines 95-98 before
stripping. -/
def responseText : LLMResponse → String
  | .withContent c => c
  | .plain s => s

/-- rag_pipeline.py lines 63-68: the explainer wraps the LLM client. -/
structure IngredientExplainer where
  llm : ChatGroq
deriving DecidableEq, Repr

/-- The prompt f-string of rag_pipeline.py lines 90-91. -/
def explanationPrompt (ingredient_list : List String) (risk_level risk_category : PyVal) :
    String :=
  "Food safety expert: Briefly explain these ingredients (" ++
    String.intercalate ", " ingredient_list ++ ") at risk level " ++
    pyValToString risk_level ++ " (" ++ pyValToString risk_category ++ "). \n" ++
    "For each ingredient: name, purpose, concern, safer option if any. Be concise."

/-- rag_pipeline.py lines 70-106, `IngredientExplainer.generate_explanation`:
parse the ingredients, compute the (unused) per-ingredient word budget, build
the prompt, invoke the LLM, and strip the response text; any exception `e`
is caught and returned as the string `"Could not generate explanation: " ++ e`.
The external client behaviour is the parameter `invoke`. -/
def generate_explanation (invoke : ChatGroq → String → Except String LLMResponse)
    (self : IngredientExplainer) (ingredients : String)
    (risk_level risk_category : PyVal) : String :=
  let ingredient_list := parse_ingredients ingredients
  let num_ingredients := ingredient_list.length
  let words_per_ingredient := min 50 (max 20 (400 / max num_ingredients 1))
  let prompt := explanationPrompt ingredient_list risk_level risk_category
  match invoke self.llm prompt with
  | Except.ok response => pyStrip (responseText response)
  | Except.error e => "Could not generate explanation: " ++ e

/-- rag_pipeline.py lines 112-124, `initialize_rag_pipeline`: build the LLM
and wrap it; every exception is caught and `None` is returned. -/
def initialize_rag_pipeline (env : String → Option String) : Option IngredientExplainer :=
  match create_groq_llm env with
  | Except.ok llm => some ⟨llm⟩
  | Except.error _ => none

/-- Python falsiness of an `Optional[Dict]`: `None` and the empty dict are
falsy (rag_pipeline.py line 146, `if not classification_result`). -/
def optDictFalsy : Option (List (String × PyVal)) → Bool
  | none => true
  | some d => d.isEmpty

/-- rag_pipeline.py lines 130-159, `call_rag_pipeline`: return the fixed
sentinel when no (truthy) classification result is supplied, otherwise read
the risk level and category from the dict with `"unknown"` defaults and
delegate to `generate_explanation`. -/
def call_rag_pipeline (invoke : ChatGroq → String → Except String LLMResponse)
    (explainer : IngredientExplainer) (user_input : String)
    (classification_result : Option (List (String × PyVal))) : String :=
  if optDictFalsy classification_result then
    "No classification data available for explanation."
  else
    let d := classification_result.getD []
    let risk_level := dictGet d "risk_level" (PyVal.vStr "unknown")
    let risk_category := dictGet d "risk_category" (PyVal.vStr "unknown")
    generate_explanation invoke explainer user_input risk_level risk_category

/- ## Helper lemmas -/

/-- The keep-condition of the parsing loop agrees with the drop-condition of
the specification wording. -/
theorem keep_cond_iff (t : String) :
    (t ≠ "" ∧ t.length > 1 ∧ ¬ pyIsDigitStr t = true) ↔
      (!(t.isEmpty || decide (t.length ≤ 1) || pyIsDigitStr t)) = true := by
  cases hempty : t.isEmpty <;> cases hdig : pyIsDigitStr t <;> by_cases hlen : t.length ≤ 1 <;>
    simp [hempty, hdig, hlen, ← String.isEmpty_iff] <;> omega

/-- Unrolling the cleaning loop of `parse_ingredients`: folding over the
fields appends exactly the stripped fields that pass the filter. -/
theorem parse_foldl (l : List String) (acc : List String) :
    l.foldl
      (fun acc ing0 =>
        let ing := pyStrip ing0
        if ing ≠ "" ∧ ing.length > 1 ∧ ¬ pyIsDigitStr ing = true then acc ++ [ing]
        else acc)
      acc =
    acc ++ (l.map pyStrip).filter
      (fun t => !(t.isEmpty || decide (t.length ≤ 1) || pyIsDigitStr t)) := by
  induction l generalizing acc with
  | nil => simp
  | cons x xs ih =>
    simp only [List.foldl_cons, List.map_cons, List.filter_cons]
    by_cases hc : pyStrip x ≠ "" ∧ (pyStrip x).length > 1 ∧ ¬ pyIsDigitStr (pyStrip x) = true
    · rw [if_pos hc, ih, (keep_cond_iff (pyStrip x)).mp hc]
      simp
    · rw [if_neg hc, ih]
      have hb : (!((pyStrip x).isEmpty || decide ((pyStrip x).length ≤ 1) ||
          pyIsDigitStr (pyStrip x))) = false := by
        rcases Bool.eq_false_or_eq_true (!((pyStrip x).isEmpty ||
            decide ((pyStrip x).length ≤ 1) || pyIsDigitStr (pyStrip x))) with ht | hf
        · exact absurd ((keep_cond_iff (pyStrip x)).mpr ht) hc
        · exact hf
      rw [hb]
      simp

/-- Bound for the argmax worker: the running best index stays below the
number of elements seen. -/
theorem torchArgmaxAux_lt (xs : List ℚ) :
    ∀ (i best : Nat) (v : ℚ), best < i → torchArgmaxAux xs i best v < i + xs.length := by
  induction xs with
  | nil =>
    intro i best v h
    simpa [torchArgmaxAux] using h
  | cons x xs ih =>
    intro i best v h
    simp only [torchArgmaxAux, List.length_cons]
    split
    · have := ih (i + 1) i x (by omega)
      omega
    · have := ih (i + 1) best v (by omega)
      omega

/-- `torch.argmax` of a non-empty list is a valid index. -/
theorem torchArgmax_lt (l : List ℚ) (h : l ≠ []) : torchArgmax l < l.length := by
  cases l with
  | nil => exact absurd rfl h
  | cons x xs =>
    simp only [torchArgmax, List.length_cons]
    have := torchArgmaxAux_lt xs 1 0 x (by omega)
    omega

/-- A list of length 5 is a literal five-element list. -/
theorem exists_five_of_length_eq {α : Type} (l : List α) (h : l.length = 5) :
    ∃ a b c d e, l = [a, b, c, d, e] := by
  rcases l with _ | ⟨a, l⟩
  · simp at h
  rcases l with _ | ⟨b, l⟩
  · simp at h
  rcases l with _ | ⟨c, l⟩
  · simp at h
  rcases l with _ | ⟨d, l⟩
  · simp at h
  rcases l with _ | ⟨e, l⟩
  · simp at h
  rcases l with _ | ⟨f, l⟩
  · exact ⟨a, b, c, d, e, rfl⟩
  · simp at h

deriving instance DecidableEq for Except

/-- Inversion of a successful `predict_risk`: the response fields are exactly
the ones computed by the handler body. -/
theorem predict_risk_ok_fields (m : String → List ℚ) (t : String) (r : PredictionResponse)
    (hok : predict_risk m t = Except.ok r) :
    r.pred_id = Int.ofNat (torchArgmax (m (pyStrip t))) ∧
      r.risk_level = dictGet id2risk_level r.pred_id 3 ∧
      r.risk_category = dictGet risk_level2category r.risk_level "Unknown" ∧
      r.probabilities = (m (pyStrip t)).enum.map (fun ip => (toString ip.1, ip.2)) := by
  by_cases he : pyStrip t = ""
  · simp only [predict_risk] at hok
    rw [if_pos he] at hok
    exact Except.noConfusion hok
  · simp only [predict_risk] at hok
    rw [if_neg he] at hok
    injection hok with hr
    subst hr
    exact ⟨rfl, rfl, rfl, rfl⟩

/-- The response `predict_risk` produces for a model that always emits the
probability row (0, 0, 1, 0, 0); used as concrete probe input. -/
def c5_r : PredictionResponse :=
  { text := "milk"
    pred_id := 2
    risk_level := 3
    risk_category := "Moderate"
    probabilities := [("0", 0), ("1", 0), ("2", 1), ("3", 0), ("4", 0)]
    error := none }

/- ## Theorems for the claims -/

/-- C1 counterexample: for the out-of-range predicted index 5, the label
mapper does not fail; it silently returns the default risk level 3, whose
category lookup yields "Moderate". -/
theorem c1_counterexample : map_risk 5 = (3, "Moderate") := by decide

/-- C1 amended: for every predicted class index outside 0-4, `map_risk`
silently returns the default risk level 3 with category "Moderate" (the
level-3 table entry); no error is ever raised. -/
theorem c1_theorem (i : Int) (h : i < 0 ∨ 4 < i) : map_risk i = (3, "Moderate") := by
  have h0 : ((0 : Int) == i) = false := by rw [beq_eq_false_iff_ne]; omega
  have h1 : ((1 : Int) == i) = false := by rw [beq_eq_false_iff_ne]; omega
  have h2 : ((2 : Int) == i) = false := by rw [beq_eq_false_iff_ne]; omega
  have h3 : ((3 : Int) == i) = false := by rw [beq_eq_false_iff_ne]; omega
  have h4 : ((4 : Int) == i) = false := by rw [beq_eq_false_iff_ne]; omega
  simp [map_risk, dictGet, id2risk_level, risk_level2category, List.find?,
    h0, h1, h2, h3, h4]

/-- C1 witness for the amended theorem at index 5. -/
theorem c1_witness : ((5 : Int) < 0 ∨ (4 : Int) < 5) ∧ map_risk 5 = (3, "Moderate") :=
  ⟨by decide, c1_theorem 5 (by decide)⟩

/-- C2 counterexample: the splitter on "a, b (123), , x" does not return
["a", "b", "x"]. -/
theorem c2_counterexample : parse_ingredients "a, b (123), , x" ≠ ["a", "b", "x"] := by decide

/-- C2 amended: the splitter on "a, b (123), , x" returns the empty list,
because "a", "b" and "x" have length 1 (dropped by the length filter) and
"123" is all digits. -/
theorem c2_theorem : parse_ingredients "a, b (123), , x" = [] := by decide

/-- C3: for every payload whose text is empty after stripping, `predict_risk`
fails with HTTP 400 "Empty input text", and the result does not depend on the
tokenizer/model stack at all (it is never invoked). -/
theorem c3_theorem (m1 m2 : String → List ℚ) (t : String) (h : pyStrip t = "") :
    predict_risk m1 t = Except.error ⟨400, "Empty input text"⟩ ∧
      predict_risk m1 t = predict_risk m2 t := by
  constructor <;> simp [predict_risk, h]

/-- C3 witness at the whitespace-only payload "   ". -/
theorem c3_witness :
    pyStrip "   " = "" ∧
      (predict_risk (fun _ => [1]) "   " = Except.error ⟨400, "Empty input text"⟩ ∧
        predict_risk (fun _ => [1]) "   " = predict_risk (fun _ => [2]) "   ") :=
  ⟨by decide, c3_theorem (fun _ => [1]) (fun _ => [2]) "   " (by decide)⟩

/-- C4: the label mapper on each valid index 0-4 returns level index+1 and
the fixed category string of the table. -/
theorem c4_theorem :
    map_risk 0 = (1, "Very Safe") ∧ map_risk 1 = (2, "Safe") ∧
      map_risk 2 = (3, "Moderate") ∧ map_risk 3 = (4, "Concerning") ∧
      map_risk 4 = (5, "High Risk") := by decide

/-- C6: when the LLM client raises (modelled as `invoke` returning
`Except.error e` for every prompt), `generate_explanation` returns exactly
the fixed prefix "Could not generate explanation: " followed by the message,
and `call_rag_pipeline` with any truthy classification dict surfaces that
same string; being total functions into `String`, neither propagates the
exception. -/
theorem c6_theorem (invoke : ChatGroq → String → Except String LLMResponse)
    (expl : IngredientExplainer) (ing : String) (rl rc : PyVal) (e : String)
    (hinv : ∀ g p, invoke g p = Except.error e) :
    generate_explanation invoke expl ing rl rc = "Could not generate explanation: " ++ e ∧
      ∀ d : List (String × PyVal), d ≠ [] →
        call_rag_pipeline invoke expl ing (some d) = "Could not generate explanation: " ++ e := by
  constructor
  · simp [generate_explanation, hinv]
  · intro d hd
    simp [call_rag_pipeline, optDictFalsy, List.isEmpty_eq_true, hd,
      generate_explanation, hinv]

/-- C6 witness: a client that always raises "timeout". -/
theorem c6_witness :
    generate_explanation (fun _ _ => Except.error "timeout") ⟨⟨"m", 0, 0, "k", 0, 0⟩⟩
        "sugar, salt" (PyVal.vInt 3) (PyVal.vStr "Moderate") =
      "Could not generate explanation: " ++ "timeout" ∧
      ∀ d : List (String × PyVal), d ≠ [] →
        call_rag_pipeline (fun _ _ => Except.error "timeout") ⟨⟨"m", 0, 0, "k", 0, 0⟩⟩
            "sugar, salt" (some d) = "Could not generate explanation: " ++ "timeout" :=
  c6_theorem (fun _ _ => Except.error "timeout") ⟨⟨"m", 0, 0, "k", 0, 0⟩⟩
    "sugar, salt" (PyVal.vInt 3) (PyVal.vStr "Moderate") "timeout" (fun _ _ => rfl)

/-- C5: whenever `predict_risk` succeeds (external model emitting the 5-class
probability row of the pretrained classifier), the response satisfies
risk_level = pred_id + 1 and risk_category is exactly the entry of the fixed
five-entry table keyed by risk_level. -/
theorem c5_theorem (m : String → List ℚ) (t : String) (r : PredictionResponse)
    (hlen : (m (pyStrip t)).length = 5)
    (hok : predict_risk m t = Except.ok r) :
    r.risk_level = r.pred_id + 1 ∧
      risk_level2category.lookup r.risk_level = some r.risk_category := by
  obtain ⟨hpred, hlev, hcat, _⟩ := predict_risk_ok_fields m t r hok
  obtain ⟨k, hk, hk5⟩ : ∃ k, torchArgmax (m (pyStrip t)) = k ∧ k < 5 := by
    refine ⟨_, rfl, ?_⟩
    have hne : m (pyStrip t) ≠ [] := by
      intro hnil
      rw [hnil] at hlen
      simp at hlen
    have := torchArgmax_lt (m (pyStrip t)) hne
    omega
  rw [hlev] at hcat
  rw [hlev, hcat, hpred, hk]
  interval_cases k <;> exact ⟨by decide, by decide⟩

/-- C5 witness: a concrete 5-class model peaking at index 2. -/
theorem c5_witness :
    (c5_r.risk_level = c5_r.pred_id + 1 ∧
      risk_level2category.lookup c5_r.risk_level = some c5_r.risk_category) :=
  c5_theorem (fun _ => [0, 0, 1, 0, 0]) "milk" c5_r (by decide) (by decide)

/-- C7: the ingredient splitter of the source coincides, on every input, with
the splitter described by the specification (split on comma and parentheses,
trim, drop empty or one-character or all-digit pieces, keep order), and the
empty input yields the empty list. -/
theorem c7_theorem :
    (∀ s, parse_ingredients s = ingredient_splitter_spec s) ∧ parse_ingredients "" = [] := by
  constructor
  · intro s
    unfold parse_ingredients ingredient_splitter_spec
    simpa using parse_foldl (reSplit s) []
  · decide

/-- C8: whenever `predict_risk` succeeds and the external softmax row has 5
entries summing to 1 within 1e-4, the serialized probabilities of the
response have exactly the keys "0" through "4" in order and their values sum
to 1 within 1e-4. -/
theorem c8_theorem (m : String → List ℚ) (t : String) (r : PredictionResponse)
    (hlen : (m (pyStrip t)).length = 5)
    (hsum : |(m (pyStrip t)).sum - 1| ≤ 1 / 10000)
    (hok : predict_risk m t = Except.ok r) :
    r.probabilities.map Prod.fst = ["0", "1", "2", "3", "4"] ∧
      |(r.probabilities.map Prod.snd).sum - 1| ≤ 1 / 10000 := by
  obtain ⟨_, _, _, hprob⟩ := predict_risk_ok_fields m t r hok
  obtain ⟨a, b, c, d, e, hml⟩ := exists_five_of_length_eq (m (pyStrip t)) hlen
  rw [hprob, hml]
  rw [hml] at hsum
  constructor
  · show [toString (0 : Nat), toString (1 : Nat), toString (2 : Nat), toString (3 : Nat),
      toString (4 : Nat)] = ["0", "1", "2", "3", "4"]
    rfl
  · have hsnd : (([a, b, c, d, e].enum.map fun ip => (toString ip.1, ip.2)).map
        Prod.snd) = [a, b, c, d, e] := rfl
    rw [hsnd]
    exact hsum

/-- C8 witness: a concrete model whose row is the exact distribution
(0, 0, 1, 0, 0). -/
theorem c8_witness :
    (c5_r.probabilities.map Prod.fst = ["0", "1", "2", "3", "4"] ∧
      |(c5_r.probabilities.map Prod.snd).sum - 1| ≤ 1 / 10000) :=
  c8_theorem (fun _ => [0, 0, 1, 0, 0]) "milk" c5_r (by decide) (by norm_num) (by decide)

/-- C9: calling `call_rag_pipeline` with no classification result returns the
fixed sentinel, for every LLM client behaviour, every explainer and every
ingredient text: the LLM is never consulted. -/
theorem c9_theorem (invoke : ChatGroq → String → Except String LLMResponse)
    (explainer : IngredientExplainer) (user_input : String) :
    call_rag_pipeline invoke explainer user_input none =
      "No classification data available for explanation." := rfl

/-- C10 counterexample: with the API key absent from the environment,
`initialize_rag_pipeline` does not fail fast; it swallows the error and
returns `none`, a disabled explainer. -/
theorem c10_counterexample : initialize_rag_pipeline (fun _ => none) = none := rfl

/-- C10 amended: when GROQ_API_KEY is absent (or empty), `create_groq_llm`
does raise the descriptive ValueError, but `initialize_rag_pipeline` catches
every exception and returns `none`, proceeding with a disabled explainer
instead of failing fast. -/
theorem c10_theorem (env : String → Option String)
    (h : pyFalsyOptStr (env "GROQ_API_KEY") = true) :
    create_groq_llm env = Except.error "❌ GROQ_API_KEY not found in environment variables" ∧
      initialize_rag_pipeline env = none := by
  constructor
  · simp [create_groq_llm, h]
  · simp [initialize_rag_pipeline, create_groq_llm, h]

/-- C10 witness at the empty environment. -/
theorem c10_witness :
    pyFalsyOptStr ((fun _ => none : String → Option String) "GROQ_API_KEY") = true ∧
      (create_groq_llm (fun _ => none) =
          Except.error "❌ GROQ_API_KEY not found in environment variables" ∧
        initialize_rag_pipeline (fun _ => none) = none) :=
  ⟨rfl, c10_theorem (fun _ => none) rfl⟩
